import Mathlib

/-!
Shallow embedding of the computational core of the `pneuma_treatment`
repository (road-graph construction and windowed traffic aggregation),
together with theorems settling the specification claims.

Conventions of the embedding:
* Python floats are modelled as exact rationals (`ℚ`); float rounding error
  is not modelled.
* `pandas` missing values (`NaN` / `None`) are modelled as `Option`.
* `pandas.sort_values` is modelled as a stable insertion sort (the scripts
  never depend on the order of tied keys).
* Rows whose `FID` is missing are dropped by every script before the code
  modelled here runs, so samples carry a plain (non-optional) node id.
-/

namespace Pneuma

/-! ### Generic helpers shared by several scripts -/

/-- Python `int()` applied to a (real-valued) quotient: truncation toward
zero. -/
def pyTrunc (q : ℚ) : Int := if 0 ≤ q then ⌊q⌋ else ⌈q⌉

/-- Arithmetic mean as computed by `numpy.mean` / `pandas.mean` on a
non-empty column (on `[]` it returns `0` here; the scripts only apply it to
non-empty data). -/
def mean (l : List ℚ) : ℚ := l.sum / l.length

/-- Round half to even (the rounding used by Python's built-in `round`),
at integer granularity. -/
def roundHalfEven (q : ℚ) : Int :=
  if q - ⌊q⌋ < 1/2 then ⌊q⌋
  else if 1/2 < q - ⌊q⌋ then ⌊q⌋ + 1
  else if ⌊q⌋ % 2 = 0 then ⌊q⌋ else ⌊q⌋ + 1

/-- Python `round(x, 2)`. -/
def round2 (q : ℚ) : ℚ := (roundHalfEven (q * 100) : ℚ) / 100

/-! ### 06lane_transitions.py — Trajectory Transition Extractor

`extract_lane_transitions` walks one vehicle's samples (already sorted by
timestamp, already filtered to rows with a resolved segment id) and emits a
pair `(prev, curr)` whenever the resolved segment id changes. -/

/-- The loop body of `extract_lane_transitions`: `prev` is the segment id of
the previous sample, the list holds the ids of the remaining samples. -/
def extractAux (prev : Int) : List Int → List (Int × Int)
  | [] => []
  | c :: rest => (if prev ≠ c then [(prev, c)] else []) ++ extractAux c rest

/-- `extract_lane_transitions` of `06lane_transitions.py`: the segment ids
of one vehicle's samples in timestamp order, mapped to the list of observed
transitions. -/
def extract_lane_transitions : List Int → List (Int × Int)
  | [] => []
  | c :: rest => extractAux c rest

theorem extractAux_eq_filter (prev : Int) (l : List Int) :
    extractAux prev l =
      ((prev :: l).zip l).filter (fun p => decide (p.1 ≠ p.2)) := by
  induction l generalizing prev with
  | nil => rfl
  | cons c rest ih =>
      simp only [extractAux, List.zip_cons_cons, List.filter_cons, ih c]
      by_cases h : prev = c
      · simp [h]
      · simp [h]

/-- C1: for every per-vehicle trajectory processed in timestamp order the
Transition Extractor emits `(prev, curr)` exactly at the consecutive sample
pairs whose resolved segment id changes (the filter of the consecutive-pair
list), a single-sample trajectory emits nothing, and the trajectory
`[5, 5, 5, 7, 7, 9]` emits exactly `[(5,7), (7,9)]`. -/
theorem transition_extractor_spec :
    (∀ l : List Int, extract_lane_transitions l =
      (l.zip l.tail).filter (fun p => decide (p.1 ≠ p.2)))
    ∧ (∀ x : Int, extract_lane_transitions [x] = [])
    ∧ extract_lane_transitions [5, 5, 5, 7, 7, 9] = [(5, 7), (7, 9)] := by
  refine ⟨?_, ?_, by decide⟩
  · intro l
    cases l with
    | nil => rfl
    | cons c rest => simpa using extractAux_eq_filter c rest
  · intro x
    rfl

/-! ### 07build_graph.py and 08build_graph_from_transitions.py —
Connection Classifier

Both scripts group the transition table by `from` id, sort each group by
`count` descending, and split the destinations into `direct` / `near` /
noise.  `07build_graph.py` keeps every destination with `count > 0`
(`direct` = maximal count, `near` = the rest); `08build_graph_from_transitions.py`
uses the lower quartile of the group's counts as the noise threshold. -/

/-- Insert a `(to_id, count)` pair into a list sorted by count descending
(stable: an incoming pair goes after existing pairs of equal count). -/
def insertByCountDesc (p : Int × Int) : List (Int × Int) → List (Int × Int)
  | [] => [p]
  | q :: qs => if q.2 < p.2 then p :: q :: qs else q :: insertByCountDesc p qs

/-- `sort_values('count', ascending=False)` on one group. -/
def sortByCountDesc : List (Int × Int) → List (Int × Int)
  | [] => []
  | p :: ps => insertByCountDesc p (sortByCountDesc ps)

/-- Result of classifying one `from` group in `07build_graph.py`:
whether a node is emitted at all, its `direct` and `near` lists, and how
many destinations were discarded as noise. -/
structure CTResult where
  emitted : Bool
  direct : List Int
  near : List Int
  noise : Nat
deriving DecidableEq

/-- The per-group classification of `07build_graph.py` (count-threshold
variant): rows with `count ≤ 0` are dropped as noise; among the remainder
the maximal-count destinations become `direct` and all others `near`. -/
def classifyCountThreshold (group : List (Int × Int)) : CTResult :=
  let sorted := sortByCountDesc group
  let valid := sorted.filter (fun p => decide (0 < p.2))
  match valid with
  | [] => ⟨false, [], [], sorted.length - valid.length⟩
  | (_, c0) :: _ =>
      ⟨true,
       (valid.filter (fun p => decide (p.2 = c0))).map Prod.fst,
       (valid.filter (fun p => decide (p.2 ≠ c0))).map Prod.fst,
       sorted.length - valid.length⟩

/-- Insert a rational into an ascending sorted list (stable). -/
def insertQAsc (a : ℚ) : List ℚ → List ℚ
  | [] => [a]
  | b :: bs => if a ≤ b then a :: b :: bs else b :: insertQAsc a bs

/-- Ascending sort of rationals. -/
def sortQAsc : List ℚ → List ℚ
  | [] => []
  | a :: as_ => insertQAsc a (sortQAsc as_)

/-- `numpy.percentile(xs, q)` with the default linear interpolation. -/
def percentile (xs : List ℚ) (q : ℚ) : ℚ :=
  let s := sortQAsc xs
  match s with
  | [] => 0
  | _ :: _ =>
      let h := q / 100 * ((s.length : ℚ) - 1)
      let lo := (⌊h⌋).toNat
      let frac := h - (⌊h⌋ : ℚ)
      let a := s.getD lo 0
      let b := s.getD (lo + 1) a
      a + frac * (b - a)

/-- Result of classifying one `from` group in
`08build_graph_from_transitions.py`. -/
structure IQRResult where
  direct : List Int
  near : List Int
  noise : Nat
deriving DecidableEq

/-- The per-group classification of `08build_graph_from_transitions.py`
(distribution-based variant): threshold `0` when the group has at most two
rows, otherwise the lower quartile `Q1` of the group's counts; the
maximal-count destinations become `direct`, destinations with
`count ≥ threshold` become `near`, the rest are counted as noise. -/
def classifyIQR (group : List (Int × Int)) : IQRResult :=
  let sorted := sortByCountDesc group
  match sorted with
  | [] => ⟨[], [], 0⟩
  | (_, c0) :: _ =>
      let counts : List ℚ := sorted.map (fun p => (p.2 : ℚ))
      let thr : ℚ := if sorted.length ≤ 2 then 0 else percentile counts 25
      ⟨(sorted.filter (fun p => decide (p.2 = c0))).map Prod.fst,
       (sorted.filter
          (fun p => decide (p.2 ≠ c0) && decide (thr ≤ (p.2 : ℚ)))).map Prod.fst,
       (sorted.filter
          (fun p => decide (p.2 ≠ c0) && decide ((p.2 : ℚ) < thr))).length⟩

/-- The transition counts of the specification's classifier test:
`{(5,7): 100, (5,8): 40, (5,9): 3}`, i.e. the group of `from`-segment 5. -/
def c2Input : List (Int × Int) := [(7, 100), (8, 40), (9, 3)]

/-- C2 counterexample: on the spec's example counts the count-threshold
variant of `07build_graph.py` classifies destination 9 as `near` (its
threshold keeps every positive count) and reports 0 noise discards — not
`9 → noise` with a noise count of 1 as the claim states. -/
theorem count_threshold_variant_on_spec_example :
    classifyCountThreshold c2Input = ⟨true, [7], [8, 9], 0⟩ ∧
    ¬ ((classifyCountThreshold c2Input).noise = 1 ∧
       (classifyCountThreshold c2Input).near = [8]) := by
  decide

/-- C2 amended: the spec's example classification (`7 → direct`,
`8 → near`, `9 → noise`, noise-discard count `1`) is produced by the
distribution-based (lower-quartile) variant of
`08build_graph_from_transitions.py`, whose threshold on these counts is
`Q1 = 21.5` — not by the count-threshold variant, and not with an absolute
threshold of 10. -/
theorem iqr_variant_matches_spec_example :
    classifyIQR c2Input = ⟨[7], [8], 1⟩ ∧
    percentile [(100 : ℚ), 40, 3] 25 = 43 / 2 := by
  have hp : percentile [(100 : ℚ), 40, 3] 25 = 43 / 2 := by
    norm_num [percentile, sortQAsc, insertQAsc]
  refine ⟨?_, hp⟩
  simp only [classifyIQR, c2Input, sortByCountDesc, insertByCountDesc]
  norm_num [hp, IQRResult.mk.injEq]

/-! ### validate_graph.py — standalone graph validator

The validator walks a persisted graph document and accumulates two lists:
`errors` (duplicate lane ids, lane-level `downstream_connections` pointing
to a non-existent lane, duplicate node ids) and `warnings` (lane node-count
mismatch, node-level `direct`/`near` connections pointing to a non-existent
node, upstream/downstream consistency, split-ratio sums).  It returns
`len(errors) == 0`.  The five required top-level JSON keys are a parse-level
concern: the embedded document structurally has them. -/

/-- A lane-level `downstream_connections` entry. -/
structure DownConn where
  target_lane : Int
  movement : String
  split_ratio : ℚ
deriving DecidableEq

/-- A lane-level `upstream_sources` entry. -/
structure UpSource where
  source_lane : Int
  movement : String
  contribution_ratio : ℚ
deriving DecidableEq

/-- A lane record of the graph document.  `downstream_connections` and
`upstream_sources` are `Option`s because the validator tests key presence
(`'upstream_sources' in lane`); an absent `lane_type` only affects printed
statistics and is not modelled. -/
structure VLane where
  lane_id : Int
  total_length : ℚ
  segment_length : ℚ
  nodes : List Int
  downstream_connections : Option (List DownConn)
  upstream_sources : Option (List UpSource)
deriving DecidableEq

/-- The three `node_connections` edge lists of a node (an absent key acts
exactly like an empty list in every validator loop, so plain lists are
used). -/
structure NodeConnections where
  direct : List Int
  near : List Int
  crossing : List Int
deriving DecidableEq

/-- A node record of the graph document. -/
structure VNode where
  node_id : Int
  node_connections : NodeConnections
deriving DecidableEq

/-- A persisted graph document (the parts the validator reads). -/
structure GraphDoc where
  lanes : List VLane
  nodes : List VNode
deriving DecidableEq

/-- The connection kinds checked by the validator's node loop
(`for conn_type in ['direct', 'near']`; `crossing` is not checked). -/
inductive CKind where
  | direct
  | near
deriving DecidableEq

/-- The connection list of a node selected by a `CKind`. -/
def connsOf (n : VNode) : CKind → List Int
  | CKind.direct => n.node_connections.direct
  | CKind.near => n.node_connections.near

/-- One diagnostic message of `validate_graph.py` (which Python string was
appended, with its interpolated values). -/
inductive VMsg where
  | dupLaneId (laneId : Int)
  | danglingLaneConn (laneId target : Int)
  | laneNodeCountMismatch (laneId : Int) (expected : Int) (actual : Nat)
  | dupNodeId (nodeId : Int)
  | danglingNodeConn (nodeId : Int) (kind : CKind) (target : Int)
  | upstreamCountMismatch (laneId : Int) (expected actual : Nat)
  | contributionRatioMismatch (laneId sourceLane : Int) (downRatio upRatio : ℚ)
  | missingUpstreamSource (laneId sourceLane : Int)
  | splitRatioSumOff (laneId : Int) (total : ℚ)
deriving DecidableEq

/-- All declared lane ids of the document
(`[l['lane_id'] for l in lanes]`). -/
def allLaneIds (g : GraphDoc) : List Int := g.lanes.map (·.lane_id)

/-- All declared node ids of the document
(`[n['node_id'] for n in nodes]`). -/
def allNodeIds (g : GraphDoc) : List Int := g.nodes.map (·.node_id)

/-- The `errors` produced by the validator's lane loop: duplicate-id checks
against the set of already-seen ids, and dangling `downstream_connections`
targets (`target not in lane_ids and target not in all ids`). -/
def laneScanErrors (allIds : List Int) : List Int → List VLane → List VMsg
  | _, [] => []
  | seen, l :: rest =>
      (if l.lane_id ∈ seen then [VMsg.dupLaneId l.lane_id] else []) ++
      ((l.downstream_connections.getD []).filterMap (fun c =>
        if c.target_lane ∉ (l.lane_id :: seen) ∧ c.target_lane ∉ allIds then
          some (VMsg.danglingLaneConn l.lane_id c.target_lane)
        else none)) ++
      laneScanErrors allIds (l.lane_id :: seen) rest

/-- The lane loop's node-count `warnings`:
`expected = int(total_length / segment_length)` compared with
`len(lane['nodes'])`. -/
def laneCountWarnings (lanes : List VLane) : List VMsg :=
  lanes.filterMap (fun l =>
    let expected := pyTrunc (l.total_length / l.segment_length)
    if expected ≠ (l.nodes.length : Int) then
      some (VMsg.laneNodeCountMismatch l.lane_id expected l.nodes.length)
    else none)

/-- The `errors` produced by the validator's node loop (duplicate node
ids). -/
def nodeScanErrors : List Int → List VNode → List VMsg
  | _, [] => []
  | seen, n :: rest =>
      (if n.node_id ∈ seen then [VMsg.dupNodeId n.node_id] else []) ++
      nodeScanErrors (n.node_id :: seen) rest

/-- The node loop's `warnings`: for `direct` then `near`, any target that is
neither among the already-seen node ids nor among all declared node ids. -/
def nodeScanWarnings (allIds : List Int) : List Int → List VNode → List VMsg
  | _, [] => []
  | seen, n :: rest =>
      (n.node_connections.direct.filterMap (fun t =>
        if t ∉ (n.node_id :: seen) ∧ t ∉ allIds then
          some (VMsg.danglingNodeConn n.node_id CKind.direct t) else none)) ++
      (n.node_connections.near.filterMap (fun t =>
        if t ∉ (n.node_id :: seen) ∧ t ∉ allIds then
          some (VMsg.danglingNodeConn n.node_id CKind.near t) else none)) ++
      nodeScanWarnings allIds (n.node_id :: seen) rest

/-- `downstream_map[target]`: every `(source lane, movement, split ratio)`
of a `downstream_connections` entry pointing at `target`, in document
order. -/
def downstreamMap (g : GraphDoc) (target : Int) : List (Int × String × ℚ) :=
  g.lanes.flatMap (fun l =>
    (l.downstream_connections.getD []).filterMap (fun c =>
      if c.target_lane = target then some (l.lane_id, c.movement, c.split_ratio)
      else none))

/-- The upstream-consistency `warnings` (step 4 of the validator): for every
lane that declares `upstream_sources`, compare them with the accumulated
downstream map. -/
def upstreamWarnings (g : GraphDoc) : List VMsg :=
  g.lanes.flatMap (fun l =>
    match l.upstream_sources with
    | none => []
    | some actual =>
        let expected := downstreamMap g l.lane_id
        (if expected.length ≠ actual.length then
          [VMsg.upstreamCountMismatch l.lane_id expected.length actual.length]
        else []) ++
        expected.flatMap (fun e =>
          match actual.find? (fun a =>
              decide (a.source_lane = e.1) && decide (a.movement = e.2.1)) with
          | some a =>
              if 1/100 < |a.contribution_ratio - e.2.2| then
                [VMsg.contributionRatioMismatch l.lane_id e.1 e.2.2
                  a.contribution_ratio]
              else []
          | none => [VMsg.missingUpstreamSource l.lane_id e.1]))

/-- The split-ratio `warnings` (step 5 of the validator). -/
def splitRatioWarnings (lanes : List VLane) : List VMsg :=
  lanes.filterMap (fun l =>
    match l.downstream_connections with
    | none => none
    | some conns =>
        let total := (conns.map (·.split_ratio)).sum
        if 1/100 < |total - 1| then some (VMsg.splitRatioSumOff l.lane_id total)
        else none)

/-- The full `errors` list accumulated by `validate_graph`. -/
def validatorErrors (g : GraphDoc) : List VMsg :=
  laneScanErrors (allLaneIds g) [] g.lanes ++ nodeScanErrors [] g.nodes

/-- The full `warnings` list accumulated by `validate_graph`. -/
def validatorWarnings (g : GraphDoc) : List VMsg :=
  laneCountWarnings g.lanes ++ nodeScanWarnings (allNodeIds g) [] g.nodes ++
    upstreamWarnings g ++ splitRatioWarnings g.lanes

/-- The validator's verdict: `return len(errors) == 0`. -/
def validate_graph (g : GraphDoc) : Bool := (validatorErrors g).isEmpty

/-- A correctly-built graph document: no duplicate lane ids, every
`downstream_connections` target declared, no duplicate node ids (these are
exactly the conditions whose violation the validator records as an
error). -/
def wellFormed (g : GraphDoc) : Prop :=
  (allLaneIds g).Nodup ∧
  (∀ l ∈ g.lanes, ∀ c ∈ l.downstream_connections.getD [],
    c.target_lane ∈ allLaneIds g) ∧
  (allNodeIds g).Nodup

theorem mem_nodeScanWarnings (allIds : List Int) (nodes : List VNode)
    (n : VNode) (k : CKind) (t : Int) :
    ∀ seen : List Int, n ∈ nodes → t ∈ connsOf n k → t ∉ allIds →
    (∀ m ∈ nodes, m.node_id ∈ allIds) → (∀ x ∈ seen, x ∈ allIds) →
    VMsg.danglingNodeConn n.node_id k t ∈ nodeScanWarnings allIds seen nodes := by
  induction nodes with
  | nil => intro seen hn; cases hn
  | cons m rest ih =>
      intro seen hn ht hout hall hseen
      have hmid : m.node_id ∈ allIds := hall m (List.mem_cons_self m rest)
      have hcond : ∀ u ∈ (m.node_id :: seen), u ∈ allIds := by
        intro u hu
        rcases List.mem_cons.mp hu with h | h
        · exact h ▸ hmid
        · exact hseen u h
      rcases List.mem_cons.mp hn with rfl | hn'
      · have hc : t ∉ (n.node_id :: seen) ∧ t ∉ allIds := by
          constructor
          · intro hmem
            exact hout (hcond t hmem)
          · exact hout
        cases k with
        | direct =>
            refine List.mem_append.mpr (Or.inl (List.mem_append.mpr (Or.inl ?_)))
            exact List.mem_filterMap.mpr ⟨t, ht, by rw [if_pos hc]⟩
        | near =>
            refine List.mem_append.mpr (Or.inl (List.mem_append.mpr (Or.inr ?_)))
            exact List.mem_filterMap.mpr ⟨t, ht, by rw [if_pos hc]⟩
      · refine List.mem_append.mpr (Or.inr ?_)
        exact ih (m.node_id :: seen) hn' ht hout
          (fun m' hm => hall m' (List.mem_cons_of_mem _ hm)) hcond

theorem laneScanErrors_eq_nil (allIds : List Int) (lanes : List VLane) :
    ∀ seen : List Int, (∀ l ∈ lanes, l.lane_id ∉ seen) →
    (lanes.map (·.lane_id)).Nodup →
    (∀ l ∈ lanes, ∀ c ∈ l.downstream_connections.getD [],
      c.target_lane ∈ allIds) →
    laneScanErrors allIds seen lanes = [] := by
  induction lanes with
  | nil => intro seen _ _ _; rfl
  | cons l rest ih =>
      intro seen hseen hnd htgt
      rw [List.map_cons, List.nodup_cons] at hnd
      have h1 : l.lane_id ∉ seen := hseen l (List.mem_cons_self l rest)
      have h2 : (l.downstream_connections.getD []).filterMap (fun c =>
          if c.target_lane ∉ (l.lane_id :: seen) ∧ c.target_lane ∉ allIds then
            some (VMsg.danglingLaneConn l.lane_id c.target_lane)
          else none) = [] := by
        rw [List.filterMap_eq_nil_iff]
        intro c hc
        rw [if_neg]
        intro h
        exact h.2 (htgt l (List.mem_cons_self l rest) c hc)
      rw [laneScanErrors, if_neg h1, h2]
      simp only [List.nil_append, List.append_nil]
      refine ih (l.lane_id :: seen) ?_ hnd.2 ?_
      · intro l' hl'
        intro hmem
        rcases List.mem_cons.mp hmem with h | h
        · exact hnd.1 (h ▸ List.mem_map_of_mem (·.lane_id) hl')
        · exact hseen l' (List.mem_cons_of_mem _ hl') h
      · intro l' hl' c hc
        exact htgt l' (List.mem_cons_of_mem _ hl') c hc

theorem nodeScanErrors_eq_nil (nodes : List VNode) :
    ∀ seen : List Int, (∀ n ∈ nodes, n.node_id ∉ seen) →
    (nodes.map (·.node_id)).Nodup →
    nodeScanErrors seen nodes = [] := by
  induction nodes with
  | nil => intro seen _ _; rfl
  | cons n rest ih =>
      intro seen hseen hnd
      rw [List.map_cons, List.nodup_cons] at hnd
      rw [nodeScanErrors, if_neg (hseen n (List.mem_cons_self n rest))]
      simp only [List.nil_append]
      refine ih (n.node_id :: seen) ?_ hnd.2
      intro n' hn' hmem
      rcases List.mem_cons.mp hmem with h | h
      · exact hnd.1 (h ▸ List.mem_map_of_mem (·.node_id) hn')
      · exact hseen n' (List.mem_cons_of_mem _ hn') h

theorem danglingNodeConn_not_mem_laneScanErrors (allIds seen : List Int)
    (lanes : List VLane) (i : Int) (k : CKind) (t : Int) :
    VMsg.danglingNodeConn i k t ∉ laneScanErrors allIds seen lanes := by
  induction lanes generalizing seen with
  | nil => simp [laneScanErrors]
  | cons l rest ih =>
      intro hmem
      rw [laneScanErrors] at hmem
      rcases List.mem_append.mp hmem with h | h
      · rcases List.mem_append.mp h with h' | h'
        · by_cases hd : l.lane_id ∈ seen
          · rw [if_pos hd] at h'
            simp at h'
          · rw [if_neg hd] at h'
            simp at h'
        · rcases List.mem_filterMap.mp h' with ⟨c, _, hc⟩
          by_cases hcond : c.target_lane ∉ (l.lane_id :: seen) ∧
              c.target_lane ∉ allIds
          · rw [if_pos hcond] at hc
            simp at hc
          · rw [if_neg hcond] at hc
            simp at hc
      · exact ih (l.lane_id :: seen) h

theorem danglingNodeConn_not_mem_nodeScanErrors (seen : List Int)
    (nodes : List VNode) (i : Int) (k : CKind) (t : Int) :
    VMsg.danglingNodeConn i k t ∉ nodeScanErrors seen nodes := by
  induction nodes generalizing seen with
  | nil => simp [nodeScanErrors]
  | cons n rest ih =>
      intro hmem
      rw [nodeScanErrors] at hmem
      rcases List.mem_append.mp hmem with h | h
      · by_cases hd : n.node_id ∈ seen
        · rw [if_pos hd] at h
          simp at h
        · rw [if_neg hd] at h
          simp at h
      · exact ih (n.node_id :: seen) h

/-- C3 amended: a node-level `direct`/`near` connection to an undeclared
node id is reported by the validator — but as a *warning*, never as an
error (so it does not by itself make validation fail); a correctly-built
graph document (distinct lane ids, declared downstream targets, distinct
node ids) produces zero errors and validates successfully. -/
theorem validator_dangling_node_spec :
    (∀ (g : GraphDoc) (n : VNode) (k : CKind) (t : Int),
      n ∈ g.nodes → t ∈ connsOf n k → t ∉ allNodeIds g →
      VMsg.danglingNodeConn n.node_id k t ∈ validatorWarnings g ∧
        VMsg.danglingNodeConn n.node_id k t ∉ validatorErrors g)
    ∧ (∀ g : GraphDoc, wellFormed g →
        validatorErrors g = [] ∧ validate_graph g = true) := by
  constructor
  · intro g n k t hn ht hout
    constructor
    · refine List.mem_append.mpr (Or.inl (List.mem_append.mpr (Or.inl
        (List.mem_append.mpr (Or.inr ?_)))))
      exact mem_nodeScanWarnings (allNodeIds g) g.nodes n k t [] hn ht hout
        (fun m hm => List.mem_map_of_mem (·.node_id) hm) (by intro x hx; cases hx)
    · intro hmem
      rcases List.mem_append.mp hmem with h | h
      · exact danglingNodeConn_not_mem_laneScanErrors _ _ _ _ _ _ h
      · exact danglingNodeConn_not_mem_nodeScanErrors _ _ _ _ _ h
  · intro g hwf
    have herr : validatorErrors g = [] := by
      rw [validatorErrors,
        laneScanErrors_eq_nil _ _ _ (by intro l _ h; cases h) hwf.1 hwf.2.1,
        nodeScanErrors_eq_nil _ _ (by intro n _ h; cases h) hwf.2.2]
      rfl
    exact ⟨herr, by rw [validate_graph, herr]; rfl⟩

/-- A document whose node 1 has a `direct` connection to the undeclared
node 99, and is otherwise clean. -/
def gDangling : GraphDoc :=
  ⟨[⟨1, 20, 10, [1, 2], none, none⟩],
   [⟨1, ⟨[99], [], []⟩⟩, ⟨2, ⟨[], [], []⟩⟩]⟩

/-- A correctly-built document. -/
def gClean : GraphDoc :=
  ⟨[⟨1, 20, 10, [10, 11], none, none⟩],
   [⟨10, ⟨[11], [], []⟩⟩, ⟨11, ⟨[], [], []⟩⟩]⟩

/-- Witness for `validator_dangling_node_spec` at the two concrete
documents. -/
theorem validator_dangling_node_spec_witness :
    (VMsg.danglingNodeConn 1 CKind.direct 99 ∈ validatorWarnings gDangling ∧
      VMsg.danglingNodeConn 1 CKind.direct 99 ∉ validatorErrors gDangling) ∧
    (validatorErrors gClean = [] ∧ validate_graph gClean = true) :=
  ⟨validator_dangling_node_spec.1 gDangling ⟨1, ⟨[99], [], []⟩⟩ CKind.direct 99
      (by decide) (by decide) (by decide),
   validator_dangling_node_spec.2 gClean
      ⟨by decide, by decide, by decide⟩⟩

/-- C3 counterexample: on `gDangling` — a document with a `direct`
connection to the undeclared node 99 — the validator still reports zero
errors and returns success; the dangling reference only appears among the
warnings.  The claim says it is reported as an error that makes validation
fail. -/
theorem dangling_node_conn_is_only_warning :
    validatorErrors gDangling = [] ∧ validate_graph gDangling = true ∧
    VMsg.danglingNodeConn 1 CKind.direct 99 ∈ validatorWarnings gDangling := by
  refine ⟨by decide, by decide, ?_⟩
  norm_num [validatorWarnings, laneCountWarnings, nodeScanWarnings,
    upstreamWarnings, splitRatioWarnings, downstreamMap, gDangling, pyTrunc,
    allNodeIds]

/-! ### C4 — lane node counts: builder versus validator check -/

/-- Acceptance of the validator's per-lane node-count consistency check
(true exactly when no `laneNodeCountMismatch` warning is emitted for the
lane): `int(total_length / segment_length) == len(lane['nodes'])`. -/
def lane_node_count_ok (l : VLane) : Bool :=
  decide (pyTrunc (l.total_length / l.segment_length) = (l.nodes.length : Int))

/-- Step 6 of `06lane_transitions.py`: the lane record built for one lane
from its (sorted, de-duplicated) observed node list, with
`total_length = segment_length * num_nodes`. -/
def mkLaneInfo (lane_id : Int) (nodes : List Int) (segment_length : ℚ) :
    VLane :=
  ⟨lane_id, segment_length * nodes.length, segment_length, nodes, none, none⟩

/-- C4 amended: the validator's consistency check accepts a lane exactly
when its node count equals the *truncated* quotient
`int(total_length / segment_length)` — not `ceil`; lanes produced by the
lane builder of `06lane_transitions.py` satisfy
`total_length = segment_length * node count`, so for them (with a positive
segment length) the node count coincides with `ceil(L/S)` and the check
accepts. -/
theorem lane_node_count_spec :
    (∀ l : VLane, lane_node_count_ok l = true ↔
      (l.nodes.length : Int) = pyTrunc (l.total_length / l.segment_length)) ∧
    (∀ l : VLane, laneCountWarnings [l] = [] ↔ lane_node_count_ok l = true) ∧
    (∀ (i : Int) (nodes : List Int) (S : ℚ), 0 < S →
      ((mkLaneInfo i nodes S).nodes.length : Int) =
        ⌈(mkLaneInfo i nodes S).total_length /
          (mkLaneInfo i nodes S).segment_length⌉ ∧
      lane_node_count_ok (mkLaneInfo i nodes S) = true) := by
  refine ⟨?_, ?_, ?_⟩
  · intro l
    simp [lane_node_count_ok, eq_comm]
  · intro l
    simp only [laneCountWarnings, List.filterMap]
    by_cases h : pyTrunc (l.total_length / l.segment_length) =
        (l.nodes.length : Int)
    · simp [h, lane_node_count_ok]
    · simp [h, lane_node_count_ok]
  · intro i nodes S hS
    have hdiv : S * (nodes.length : ℚ) / S = (nodes.length : ℚ) :=
      mul_div_cancel_left₀ _ (ne_of_gt hS)
    constructor
    · show ((nodes.length : Int)) = ⌈S * (nodes.length : ℚ) / S⌉
      rw [hdiv]
      exact_mod_cast (Int.ceil_natCast nodes.length).symm
    · show decide
        (pyTrunc (S * (nodes.length : ℚ) / S) = (nodes.length : Int)) = true
      rw [hdiv]
      simp [pyTrunc, Int.floor_natCast]

/-- A lane whose node count is `ceil(L/S) = ceil(25/10) = 3`. -/
def cLane : VLane := ⟨1, 25, 10, [100, 101, 102], none, none⟩

/-- C4 counterexample: `cLane` has exactly `ceil(total_length /
segment_length) = 3` nodes, yet the validator's consistency check rejects
it (it compares against the truncated quotient `int(25/10) = 2`) and emits
a node-count mismatch warning. -/
theorem ceil_lane_rejected_by_validator :
    (cLane.nodes.length : Int) =
      ⌈cLane.total_length / cLane.segment_length⌉ ∧
    lane_node_count_ok cLane = false ∧
    VMsg.laneNodeCountMismatch 1 2 3 ∈ laneCountWarnings [cLane] := by
  have hq : cLane.total_length / cLane.segment_length = 5 / 2 := by
    norm_num [cLane]
  have hceil : ⌈cLane.total_length / cLane.segment_length⌉ = 3 := by
    rw [hq, Int.ceil_eq_iff]
    norm_num
  have hfl : ⌊cLane.total_length / cLane.segment_length⌋ = 2 := by
    rw [hq, Int.floor_eq_iff]
    norm_num
  have htr : pyTrunc (cLane.total_length / cLane.segment_length) = 2 := by
    rw [pyTrunc, if_pos (by rw [hq]; norm_num)]
    exact hfl
  refine ⟨?_, ?_, ?_⟩
  · rw [hceil]
    rfl
  · rw [lane_node_count_ok, htr]
    simp [cLane]
  · simp only [laneCountWarnings, List.filterMap, htr]
    simp [cLane]

/-- Witness for `lane_node_count_spec` at a two-node lane with segment
length 10. -/
theorem lane_node_count_spec_witness :
    (0 : ℚ) < 10 ∧
    (((mkLaneInfo 1 [7, 8] 10).nodes.length : Int) =
      ⌈(mkLaneInfo 1 [7, 8] 10).total_length /
        (mkLaneInfo 1 [7, 8] 10).segment_length⌉ ∧
    lane_node_count_ok (mkLaneInfo 1 [7, 8] 10) = true) :=
  ⟨by norm_num, lane_node_count_spec.2.2 1 [7, 8] 10 (by norm_num)⟩

/-! ### 09lane_node_realworld.py — occupancy with cross-node spillover

`calculate_occupancy_rate` charges **every** vehicle of the current node
3/4 of its length (the branch of the source that looks ahead from the
node's own vehicles only contains `pass`), and additionally charges 1/4 of
the length of every vehicle that sits at another node in the same frame
whose next differing node (at any future sample) is the current node
through a `direct` connection. -/

/-- A trajectory row of the real-world pipeline after `main` has dropped
rows with a missing `FID` (so `fid` is plain) and coerced numeric fields
(`width` may still be missing). -/
structure RSample where
  id : Int
  frame : ℚ
  fid : Int
  width : Option ℚ
deriving DecidableEq

/-- `get_vehicle_length` of `09lane_node_realworld.py`: the `width` field
when present and positive, else the 4.0 m default. -/
def get_vehicle_length_rw (width : Option ℚ) : ℚ :=
  match width with
  | none => 4
  | some w => if w ≤ 0 then 4 else w

/-- Stable insertion into a frame-ascending list. -/
def insertByFrame (r : RSample) : List RSample → List RSample
  | [] => [r]
  | s :: ss =>
      if r.frame ≤ s.frame then r :: s :: ss else s :: insertByFrame r ss

/-- `sort_values('frame')` on a vehicle's rows (stable-sort model). -/
def sortByFrame : List RSample → List RSample
  | [] => []
  | r :: rs => insertByFrame r (sortByFrame rs)

/-- `get_next_node_for_vehicle`: the first node id different from
`current_node_id` among the vehicle's samples strictly after
`current_frame`. -/
def get_next_node_for_vehicle (traj : List RSample) (vehicle_id : Int)
    (current_node_id : Int) (current_frame : ℚ) : Option Int :=
  let vtraj := sortByFrame (traj.filter (fun r => decide (r.id = vehicle_id)))
  let future := vtraj.filter (fun r => decide (current_frame < r.frame))
  (future.find? (fun r => decide (r.fid ≠ current_node_id))).map (·.fid)

/-- The node information kept by `load_graph` of either aggregator. -/
structure NodeInfo where
  lane_id : Int
  segment_length : ℚ
  direct : List Int
  near : List Int
  crossing : List Int
deriving DecidableEq

/-- The body of the second loop of `calculate_occupancy_rate`
(`09lane_node_realworld.py`): the quarter-length contribution of one
same-frame row of the full trajectory to the current node, if any. -/
def spillContribution (traj : List RSample) (current_frame : ℚ)
    (current_node_id : Int) (node_dict : List (Int × NodeInfo))
    (r : RSample) : Option ℚ :=
  if r.fid = current_node_id then none
  else
    match get_next_node_for_vehicle traj r.id r.fid current_frame with
    | some nxt =>
        if nxt = current_node_id then
          match node_dict.lookup r.fid with
          | some info =>
              if current_node_id ∈ info.direct then
                some (get_vehicle_length_rw r.width * (1/4))
              else none
          | none => none
        else none
    | none => none

/-- `calculate_occupancy_rate` of `09lane_node_realworld.py`.  `group` is
the current node's rows of the current frame. -/
def calculate_occupancy_rate_rw (group : List RSample) (segment_length : ℚ)
    (current_node_id : Int) (node_dict : List (Int × NodeInfo))
    (traj : List RSample) (current_frame : ℚ) : ℚ :=
  if group.isEmpty then 0
  else
    min
      ((((group.map (fun r => get_vehicle_length_rw r.width * (3/4))).sum
        + ((traj.filter (fun r => decide (r.frame = current_frame))).filterMap
            (spillContribution traj current_frame current_node_id
              node_dict)).sum)
        / segment_length)) 1

/-- Total physical length of a list of rows' vehicles. -/
def sumLen (l : List RSample) : ℚ :=
  (l.map (fun r => get_vehicle_length_rw r.width)).sum

/-- The condition (apart from being in the current frame) under which a
row contributes a quarter of its vehicle's length to node `cur`: it sits at
another node, its next differing node is `cur`, and `cur` is a `direct`
successor of its node. -/
def spillPredTail (traj : List RSample) (f : ℚ) (cur : Int)
    (nd : List (Int × NodeInfo)) (r : RSample) : Bool :=
  decide (r.fid ≠ cur) &&
  decide (get_next_node_for_vehicle traj r.id r.fid f = some cur) &&
  (match nd.lookup r.fid with
   | some info => decide (cur ∈ info.direct)
   | none => false)

/-- The full quarter-contribution condition, frame check included. -/
def spillPred (traj : List RSample) (f : ℚ) (cur : Int)
    (nd : List (Int × NodeInfo)) (r : RSample) : Bool :=
  decide (r.frame = f) && spillPredTail traj f cur nd r

/-- The rows that spill a quarter of their vehicle length into `cur`. -/
def spillsInto (traj : List RSample) (f : ℚ) (cur : Int)
    (nd : List (Int × NodeInfo)) : List RSample :=
  traj.filter (spillPred traj f cur nd)

theorem spillContribution_eq_ite (traj : List RSample) (f : ℚ) (cur : Int)
    (nd : List (Int × NodeInfo)) (r : RSample) :
    spillContribution traj f cur nd r =
      if spillPredTail traj f cur nd r = true then
        some (get_vehicle_length_rw r.width * (1/4))
      else none := by
  rw [spillContribution]
  by_cases h1 : r.fid = cur
  · simp [h1, spillPredTail]
  · rcases hnext : get_next_node_for_vehicle traj r.id r.fid f with _ | nxt
    · simp [h1, hnext, spillPredTail]
    · by_cases h2 : nxt = cur
      · rcases hlook : nd.lookup r.fid with _ | info
        · simp [h1, hnext, h2, hlook, spillPredTail]
        · by_cases h3 : cur ∈ info.direct
          · simp [h1, hnext, h2, hlook, h3, spillPredTail]
          · simp [h1, hnext, h2, hlook, h3, spillPredTail]
      · simp [h1, hnext, h2, spillPredTail]

theorem sum_filterMap_ite {α : Type} (p : α → Bool) (g : α → ℚ) :
    ∀ l : List α,
      (l.filterMap (fun a => if p a = true then some (g a) else none)).sum
        = ((l.filter p).map g).sum := by
  intro l
  induction l with
  | nil => rfl
  | cons a rest ih =>
      cases hp : p a with
      | true => simp [List.filterMap_cons, List.filter_cons, hp, ih]
      | false => simp [List.filterMap_cons, List.filter_cons, hp, ih]

theorem sum_map_mul_const (c : ℚ) (g : RSample → ℚ) :
    ∀ l : List RSample, (l.map (fun r => g r * c)).sum = c * (l.map g).sum := by
  intro l
  induction l with
  | nil => simp
  | cons a rest ih =>
      simp only [List.map_cons, List.sum_cons, ih]
      ring

theorem spill_sum (traj : List RSample) (cur : Int)
    (nd : List (Int × NodeInfo)) (f : ℚ) :
    ((traj.filter (fun r => decide (r.frame = f))).filterMap
        (spillContribution traj f cur nd)).sum
      = 1/4 * sumLen (spillsInto traj f cur nd) := by
  have hfun : spillContribution traj f cur nd = fun r =>
      if spillPredTail traj f cur nd r = true then
        some (get_vehicle_length_rw r.width * (1/4))
      else none :=
    funext (spillContribution_eq_ite traj f cur nd)
  rw [hfun, sum_filterMap_ite, List.filter_filter]
  have hpred : (fun r => spillPredTail traj f cur nd r &&
      decide (r.frame = f)) = spillPred traj f cur nd := by
    funext r
    rw [spillPred, Bool.and_comm]
  rw [hpred]
  rw [spillsInto, sumLen, sum_map_mul_const]

/-- C5 amended: the 75%/25% split is unconditional, not gated on being near
a node boundary: for every non-empty per-frame group of the current node's
vehicles, the occupancy equals `min((0.75·Σ own lengths + 0.25·Σ lengths of
vehicles at other nodes whose next differing node — at any future sample,
not only the immediate next — reaches this node through a `direct`
connection) / segment_length, 1)`.  A vehicle's full length is never
charged to its own node. -/
theorem occupancy_spillover_spec :
    ∀ (group traj : List RSample) (S : ℚ) (cur : Int)
      (nd : List (Int × NodeInfo)) (f : ℚ),
      group ≠ [] →
      calculate_occupancy_rate_rw group S cur nd traj f =
        min ((3/4 * sumLen group
              + 1/4 * sumLen (spillsInto traj f cur nd)) / S) 1 := by
  intro group traj S cur nd f hne
  rw [calculate_occupancy_rate_rw, if_neg (by simpa using hne)]
  rw [sum_map_mul_const, spill_sum]
  simp [sumLen]

/-- A single one-sample vehicle of length 8 m at node 1. -/
def sC5 : RSample := ⟨1, 0, 1, some 8⟩

/-- C5 counterexample: a vehicle with no further samples (certainly not
"about to cross a node boundary") is still charged only 75% of its length:
occupancy is `0.6`, not the `0.8` that charging the full 8 m length on the
10 m segment would give. -/
theorem occupancy_unconditional_split_example :
    calculate_occupancy_rate_rw [sC5] 10 1 [] [sC5] 0 = 3/5 ∧
    (3/5 : ℚ) ≠ min ((8 : ℚ)/10) 1 := by
  constructor
  · norm_num [calculate_occupancy_rate_rw, spillContribution,
      get_vehicle_length_rw, sC5, min_def]
  · rw [min_eq_left (by norm_num)]
    norm_num

/-- Witness for `occupancy_spillover_spec` at the one-vehicle scene. -/
theorem occupancy_spillover_spec_witness :
    ([sC5] : List RSample) ≠ [] ∧
    calculate_occupancy_rate_rw [sC5] 10 1 [] [sC5] 0 =
      min ((3/4 * sumLen [sC5]
            + 1/4 * sumLen (spillsInto [sC5] 0 1 [])) / 10) 1 :=
  ⟨by simp, occupancy_spillover_spec [sC5] [sC5] 10 1 [] 0 (by simp)⟩
/-! ### 09lane_node.py — Windowed Traffic Aggregator

For every node of the graph document and every output time step, three
independent half-open windows centred on the step are evaluated: average
absolute speed (2 s window, `None` on empty), distinct-vehicle flow count
(10 s window, `0` on empty) and average per-frame occupancy (4 s window,
`0.0` on empty).  Output steps run from `min(frame) + MAX_HALF_WINDOW` to
`max(frame) - MAX_HALF_WINDOW` in 1 s increments. -/

/-- A trajectory row of `09lane_node.py` after `main` has dropped rows with
a missing `FID` (`car_type` may still be missing). -/
structure TSample where
  id : Int
  frame : ℚ
  fid : Int
  v : ℚ
  car_type : Option String
deriving DecidableEq

/-- The `VEHICLE_LENGTHS` table (metres by vehicle class). -/
def VEHICLE_LENGTHS : List (String × ℚ) :=
  [("car", 4), ("medium", 6), ("heavy", 10), ("motorcycle", 2)]

/-- Python `str.lower()` (character-wise). -/
def pyLower (s : String) : String := String.mk (s.data.map Char.toLower)

/-- Python `str.strip()`: drop leading and trailing whitespace. -/
def pyStrip (s : String) : String :=
  String.mk (((s.data.dropWhile Char.isWhitespace).reverse.dropWhile
    Char.isWhitespace).reverse)

/-- `get_vehicle_length` of `09lane_node.py`: the class table entry for the
lower-cased, stripped class string, with the `'car'` entry (4.0 m) as the
default for a missing or unknown class. -/
def get_vehicle_length (car_type : Option String) : ℚ :=
  match car_type with
  | none => (VEHICLE_LENGTHS.lookup "car").getD 4
  | some s =>
      (VEHICLE_LENGTHS.lookup (pyStrip (pyLower s))).getD
        ((VEHICLE_LENGTHS.lookup "car").getD 4)

/-- `calculate_occupancy_rate` of `09lane_node.py`: summed vehicle lengths
of one frame's rows over the segment length, capped at 1. -/
def calculate_occupancy_rate (group : List TSample) (segment_length : ℚ) : ℚ :=
  if group.isEmpty then 0
  else
    min (((group.map (fun r => get_vehicle_length r.car_type)).sum)
      / segment_length) 1

/-- `SPEED_WINDOW` (seconds). -/
def SPEED_WINDOW : ℚ := 2

/-- `FLOW_WINDOW` (seconds). -/
def FLOW_WINDOW : ℚ := 10

/-- `OCCUPANCY_WINDOW` (seconds). -/
def OCCUPANCY_WINDOW : ℚ := 4

/-- `MAX_WINDOW = max(SPEED_WINDOW, FLOW_WINDOW, OCCUPANCY_WINDOW)`. -/
def MAX_WINDOW : ℚ := max SPEED_WINDOW (max FLOW_WINDOW OCCUPANCY_WINDOW)

/-- `MAX_HALF_WINDOW = int(MAX_WINDOW / 2)`. -/
def MAX_HALF_WINDOW : Int := pyTrunc (MAX_WINDOW / 2)

/-- `SPEED_HALF_WINDOW`. -/
def SPEED_HALF_WINDOW : ℚ := SPEED_WINDOW / 2

/-- `FLOW_HALF_WINDOW`. -/
def FLOW_HALF_WINDOW : ℚ := FLOW_WINDOW / 2

/-- `OCCUPANCY_HALF_WINDOW`. -/
def OCCUPANCY_HALF_WINDOW : ℚ := OCCUPANCY_WINDOW / 2

/-- The rows of one node (`node_group = traj_df[traj_df['FID_int'] ==
node_id]`). -/
def nodeGroup (traj : List TSample) (node_id : Int) : List TSample :=
  traj.filter (fun r => decide (r.fid = node_id))

/-- The rows of a half-open window `[t - half, t + half)`. -/
def windowRows (ng : List TSample) (t half : ℚ) : List TSample :=
  ng.filter (fun r =>
    decide (t - half ≤ r.frame) && decide (r.frame < t + half))

/-- The speed window of node `nid` at output time `t`. -/
def speedWindowData (traj : List TSample) (nid : Int) (t : ℚ) :
    List TSample :=
  windowRows (nodeGroup traj nid) t SPEED_HALF_WINDOW

/-- The flow window of node `nid` at output time `t`. -/
def flowWindowData (traj : List TSample) (nid : Int) (t : ℚ) :
    List TSample :=
  windowRows (nodeGroup traj nid) t FLOW_HALF_WINDOW

/-- The occupancy window of node `nid` at output time `t`. -/
def occWindowData (traj : List TSample) (nid : Int) (t : ℚ) :
    List TSample :=
  windowRows (nodeGroup traj nid) t OCCUPANCY_HALF_WINDOW

/-- First-occurrence de-duplication of rationals (`seen` accumulates). -/
def dedupFirst (seen : List ℚ) : List ℚ → List ℚ
  | [] => []
  | x :: xs =>
      if x ∈ seen then dedupFirst seen xs
      else x :: dedupFirst (x :: seen) xs

/-- First-occurrence de-duplication of integers. -/
def dedupFirstInt (seen : List Int) : List Int → List Int
  | [] => []
  | x :: xs =>
      if x ∈ seen then dedupFirstInt seen xs
      else x :: dedupFirstInt (x :: seen) xs

/-- The distinct frames of a window, ascending (`groupby('frame')` iterates
its sorted keys). -/
def occFrames (l : List TSample) : List ℚ :=
  sortQAsc (dedupFirst [] (l.map (·.frame)))

/-- One output row of the aggregator (before the final log-compression of
`total_vehicles`, which the spec calls out as a persistence step — the raw
distinct-vehicle count is the record's ground truth). -/
structure AggRecord where
  node_id : Int
  start_frame : ℚ
  avg_speed : Option ℚ
  avg_occupancy : ℚ
  total_vehicles : Nat
deriving DecidableEq

/-- The record `main` of `09lane_node.py` appends for one node and one
output time: rounded mean absolute speed over the speed window (`None` on
empty), distinct-vehicle count over the flow window, rounded mean of the
per-frame clamped occupancies over the occupancy window (`0.0` on
empty). -/
def nodeRecord (traj : List TSample) (nid : Int) (segment_length : ℚ)
    (t : ℚ) : AggRecord :=
  let speedData := speedWindowData traj nid t
  let avg_speed : Option ℚ :=
    if speedData.isEmpty then none
    else some (round2 (mean (speedData.map (fun r => |r.v|))))
  let flowData := flowWindowData traj nid t
  let total_vehicles := (dedupFirstInt [] (flowData.map (·.id))).length
  let occData := occWindowData traj nid t
  let avg_occupancy : ℚ :=
    if occData.isEmpty then 0
    else
      mean ((occFrames occData).map (fun fr =>
        calculate_occupancy_rate
          (occData.filter (fun r => decide (r.frame = fr))) segment_length))
  ⟨nid, t, avg_speed, round2 avg_occupancy, total_vehicles⟩

/-- `traj_df['frame'].min()` (0 on an empty table, where pandas would give
`NaN`). -/
def minFrame (traj : List TSample) : ℚ :=
  match traj.map (·.frame) with
  | [] => 0
  | f :: fs => fs.foldl min f

/-- `traj_df['frame'].max()`. -/
def maxFrame (traj : List TSample) : ℚ :=
  match traj.map (·.frame) with
  | [] => 0
  | f :: fs => fs.foldl max f

/-- `output_start = min_frame + MAX_HALF_WINDOW`. -/
def outputStart (traj : List TSample) : ℚ :=
  minFrame traj + (MAX_HALF_WINDOW : ℚ)

/-- `output_end = max_frame - MAX_HALF_WINDOW`. -/
def outputEnd (traj : List TSample) : ℚ :=
  maxFrame traj - (MAX_HALF_WINDOW : ℚ)

/-- The number of 1 s steps of the `while current_time <= output_end`
loop. -/
def numSteps (traj : List TSample) : Nat :=
  if outputStart traj ≤ outputEnd traj then
    (⌊outputEnd traj - outputStart traj⌋ + 1).toNat
  else 0

/-- The aggregator's output time points `output_start, output_start + 1,
…` up to `output_end`. -/
def outputTimes (traj : List TSample) : List ℚ :=
  (List.range (numSteps traj)).map (fun k : Nat => outputStart traj + (k : ℚ))

/-- The per-node segment length: `node_dict.get(node_id, {}).get
('segment_length', SEGMENT_LENGTH)` with the 10 m module default. -/
def segLenOf (nd : List (Int × ℚ)) (nid : Int) : ℚ := (nd.lookup nid).getD 10

/-- All records `main` emits: one per node of the graph document (the
aggregation needs only each node's segment length; Python iterates the
key set in unspecified order, modelled as first-occurrence order) and per
output time point. -/
def mainRecords (nd : List (Int × ℚ)) (traj : List TSample) :
    List AggRecord :=
  (dedupFirstInt [] (nd.map Prod.fst)).flatMap (fun nid =>
    (outputTimes traj).map (fun t => nodeRecord traj nid (segLenOf nd nid) t))

theorem mem_dedupFirstInt (x : Int) :
    ∀ (l seen : List Int), x ∈ dedupFirstInt seen l ↔ (x ∈ l ∧ x ∉ seen) := by
  intro l
  induction l with
  | nil => intro seen; simp [dedupFirstInt]
  | cons y ys ih =>
      intro seen
      by_cases hy : y ∈ seen
      · rw [dedupFirstInt, if_pos hy, ih]
        constructor
        · rintro ⟨h1, h2⟩
          exact ⟨List.mem_cons_of_mem _ h1, h2⟩
        · rintro ⟨h1, h2⟩
          rcases List.mem_cons.mp h1 with rfl | h
          · exact absurd hy h2
          · exact ⟨h, h2⟩
      · rw [dedupFirstInt, if_neg hy]
        constructor
        · intro h
          rcases List.mem_cons.mp h with rfl | h
          · exact ⟨List.mem_cons_self _ _, hy⟩
          · rcases (ih (y :: seen)).mp h with ⟨h1, h2⟩
            exact ⟨List.mem_cons_of_mem _ h1,
              fun hs => h2 (List.mem_cons_of_mem _ hs)⟩
        · rintro ⟨h1, h2⟩
          rcases List.mem_cons.mp h1 with rfl | h
          · exact List.mem_cons_self _ _
          · by_cases hxy : x = y
            · subst hxy
              exact List.mem_cons_self _ _
            · refine List.mem_cons_of_mem _ ((ih (y :: seen)).mpr ⟨h, ?_⟩)
              intro hs
              rcases List.mem_cons.mp hs with h' | h'
              · exact hxy h'
              · exact h2 h'

theorem round2_zero : round2 0 = 0 := by
  norm_num [round2, roundHalfEven]

/-- C6: every node of the graph document gets a record at every output time
step, and each metric falls back on its documented default when its window
is empty: `avg_speed = None`, `avg_occupancy = 0.0`, `total_vehicles = 0`.
The aggregation takes nothing but each node's segment length from the graph
document, so zero connectivity information never prevents a record. -/
theorem aggregator_empty_window_defaults :
    ∀ (nd : List (Int × ℚ)) (traj : List TSample) (nid : Int) (t : ℚ),
      nid ∈ nd.map Prod.fst → t ∈ outputTimes traj →
      nodeRecord traj nid (segLenOf nd nid) t ∈ mainRecords nd traj ∧
      (speedWindowData traj nid t = [] →
        (nodeRecord traj nid (segLenOf nd nid) t).avg_speed = none) ∧
      (occWindowData traj nid t = [] →
        (nodeRecord traj nid (segLenOf nd nid) t).avg_occupancy = 0) ∧
      (flowWindowData traj nid t = [] →
        (nodeRecord traj nid (segLenOf nd nid) t).total_vehicles = 0) := by
  intro nd traj nid t hnid ht
  refine ⟨?_, ?_, ?_, ?_⟩
  · rw [mainRecords]
    refine List.mem_flatMap.mpr ⟨nid, ?_, ?_⟩
    · exact (mem_dedupFirstInt nid (nd.map Prod.fst) []).mpr ⟨hnid, by simp⟩
    · exact List.mem_map.mpr ⟨t, ht, rfl⟩
  · intro h
    simp [nodeRecord, h]
  · intro h
    simp [nodeRecord, h, round2_zero]
  · intro h
    simp [nodeRecord, h, dedupFirstInt]

/-- The concrete node table and trajectory used to witness the aggregator
claims: node 1 has no observations at all (the two samples sit at node 2),
and the data spans 12 s, so `t = 5` is an output time. -/
def ndC6 : List (Int × ℚ) := [(1, 10)]

/-- See `ndC6`. -/
def trajC6 : List TSample := [⟨1, 0, 2, 5, none⟩, ⟨1, 12, 2, 5, none⟩]

theorem outputTimes_trajC6 : outputTimes trajC6 = [5, 6, 7] := by
  have h1 : minFrame trajC6 = 0 := by
    norm_num [minFrame, trajC6]
  have h2 : maxFrame trajC6 = 12 := by
    norm_num [maxFrame, trajC6]
  have h3 : (MAX_HALF_WINDOW : ℚ) = 5 := by
    norm_num [MAX_HALF_WINDOW, MAX_WINDOW, SPEED_WINDOW, FLOW_WINDOW,
      OCCUPANCY_WINDOW, pyTrunc]
  have h4 : outputStart trajC6 = 5 := by
    rw [outputStart, h1, h3]
    norm_num
  have h5 : outputEnd trajC6 = 7 := by
    rw [outputEnd, h2, h3]
    norm_num
  have h6 : numSteps trajC6 = 3 := by
    rw [numSteps, h4, h5, if_pos (by norm_num)]
    norm_num
    rfl
  rw [outputTimes, h6, h4]
  norm_num [List.range_succ]

/-- Witness for `aggregator_empty_window_defaults`: node 1 of `ndC6` at
output time 5 over `trajC6`. -/
theorem aggregator_empty_window_defaults_witness :
    nodeRecord trajC6 1 (segLenOf ndC6 1) 5 ∈ mainRecords ndC6 trajC6 ∧
    (nodeRecord trajC6 1 (segLenOf ndC6 1) 5).avg_speed = none ∧
    (nodeRecord trajC6 1 (segLenOf ndC6 1) 5).avg_occupancy = 0 ∧
    (nodeRecord trajC6 1 (segLenOf ndC6 1) 5).total_vehicles = 0 := by
  have hemp : nodeGroup trajC6 1 = [] := by decide
  obtain ⟨h1, h2, h3, h4⟩ :=
    aggregator_empty_window_defaults ndC6 trajC6 1 5 (by decide)
      (by rw [outputTimes_trajC6]; simp)
  exact ⟨h1, h2 (by rw [speedWindowData, hemp]; rfl),
    h3 (by rw [occWindowData, hemp]; rfl),
    h4 (by rw [flowWindowData, hemp]; rfl)⟩

theorem mean_le_one (l : List ℚ) (h : ∀ x ∈ l, x ≤ 1) : mean l ≤ 1 := by
  rcases l with _ | ⟨a, rest⟩
  · norm_num [mean]
  · have hlen : (0 : ℚ) < ((a :: rest).length : ℚ) := by
      exact_mod_cast Nat.succ_pos rest.length
    rw [mean, div_le_one hlen]
    calc (a :: rest).sum ≤ (a :: rest).length • (1 : ℚ) :=
          List.sum_le_card_nsmul _ _ h
    _ = ((a :: rest).length : ℚ) := by simp

theorem roundHalfEven_le (q : ℚ) (n : Int) (h : q ≤ n) :
    roundHalfEven q ≤ n := by
  have hfl : ⌊q⌋ ≤ n := by
    have := Int.floor_le_floor h
    rwa [Int.floor_intCast] at this
  have key : 1/2 ≤ q - ⌊q⌋ → ⌊q⌋ + 1 ≤ n := by
    intro hr
    have h2 : (⌊q⌋ : ℚ) < (n : ℚ) := by linarith
    exact Int.add_one_le_iff.mpr (by exact_mod_cast h2)
  rw [roundHalfEven]
  split_ifs with h1 h2 h3
  · exact hfl
  · exact key (le_of_lt h2)
  · exact hfl
  · exact key (not_lt.mp h1)

theorem round2_le_one (q : ℚ) (h : q ≤ 1) : round2 q ≤ 1 := by
  rw [round2, div_le_one (by norm_num)]
  have h100 : q * 100 ≤ ((100 : Int) : ℚ) := by
    push_cast
    linarith
  exact_mod_cast roundHalfEven_le (q * 100) 100 h100

theorem calc_occ_le_one (group : List TSample) (S : ℚ) :
    calculate_occupancy_rate group S ≤ 1 := by
  rw [calculate_occupancy_rate]
  split_ifs
  · norm_num
  · exact min_le_right _ _

/-- C7: the aggregator's `avg_occupancy` never exceeds 1: each
per-timestamp occupancy is clamped to 1 before the window average is
taken, in both the class-table variant (`09lane_node.py`) and the
spillover variant (`09lane_node_realworld.py`). -/
theorem avg_occupancy_le_one :
    (∀ (traj : List TSample) (nid : Int) (S t : ℚ),
      (nodeRecord traj nid S t).avg_occupancy ≤ 1) ∧
    (∀ (group : List TSample) (S : ℚ),
      calculate_occupancy_rate group S ≤ 1) ∧
    (∀ (group : List RSample) (S : ℚ) (cur : Int)
      (nd : List (Int × NodeInfo)) (traj : List RSample) (f : ℚ),
      calculate_occupancy_rate_rw group S cur nd traj f ≤ 1) := by
  refine ⟨?_, calc_occ_le_one, ?_⟩
  · intro traj nid S t
    have hproj : (nodeRecord traj nid S t).avg_occupancy =
        round2 (if (occWindowData traj nid t).isEmpty then 0
          else
            mean ((occFrames (occWindowData traj nid t)).map (fun fr =>
              calculate_occupancy_rate
                ((occWindowData traj nid t).filter
                  (fun r => decide (r.frame = fr))) S))) := rfl
    rw [hproj]
    apply round2_le_one
    split_ifs with h
    · norm_num
    · apply mean_le_one
      intro x hx
      rcases List.mem_map.mp hx with ⟨fr, _, rfl⟩
      exact calc_occ_le_one _ _
  · intro group S cur nd traj f
    rw [calculate_occupancy_rate_rw]
    split_ifs
    · norm_num
    · exact min_le_right _ _

/-! ### Output time range of `09lane_node_realworld.py`

Same structure as `09lane_node.py` but with all three windows at 2 s and
the output boundary rounded to whole seconds
(`ceil(min + MAX_HALF_WINDOW)` … `floor(max - MAX_HALF_WINDOW)`). -/

/-- `SPEED_WINDOW` of the real-world aggregator. -/
def SPEED_WINDOW_RW : ℚ := 2

/-- `FLOW_WINDOW` of the real-world aggregator. -/
def FLOW_WINDOW_RW : ℚ := 2

/-- `OCCUPANCY_WINDOW` of the real-world aggregator. -/
def OCCUPANCY_WINDOW_RW : ℚ := 2

/-- `MAX_WINDOW` of the real-world aggregator. -/
def MAX_WINDOW_RW : ℚ :=
  max SPEED_WINDOW_RW (max FLOW_WINDOW_RW OCCUPANCY_WINDOW_RW)

/-- `MAX_HALF_WINDOW = int(MAX_WINDOW / 2)` of the real-world
aggregator. -/
def MAX_HALF_WINDOW_RW : Int := pyTrunc (MAX_WINDOW_RW / 2)

/-- `traj_df['frame'].min()` of the real-world aggregator. -/
def minFrameRW (traj : List RSample) : ℚ :=
  match traj.map (·.frame) with
  | [] => 0
  | f :: fs => fs.foldl min f

/-- `traj_df['frame'].max()` of the real-world aggregator. -/
def maxFrameRW (traj : List RSample) : ℚ :=
  match traj.map (·.frame) with
  | [] => 0
  | f :: fs => fs.foldl max f

/-- `output_start = int(np.ceil(min_frame + MAX_HALF_WINDOW))`. -/
def outputStartRW (traj : List RSample) : Int :=
  ⌈minFrameRW traj + (MAX_HALF_WINDOW_RW : ℚ)⌉

/-- `output_end = int(np.floor(max_frame - MAX_HALF_WINDOW))`. -/
def outputEndRW (traj : List RSample) : Int :=
  ⌊maxFrameRW traj - (MAX_HALF_WINDOW_RW : ℚ)⌋

/-- The real-world aggregator's whole-second output time points. -/
def outputTimesRW (traj : List RSample) : List Int :=
  if outputStartRW traj ≤ outputEndRW traj then
    (List.range (outputEndRW traj - outputStartRW traj + 1).toNat).map
      (fun k : Nat => outputStartRW traj + (k : Int))
  else []

/-- C8: in both aggregators every emitted output time step `t` satisfies
`min(frame) + max_w/2 ≤ t ≤ max(frame) - max_w/2` where `max_w` is the
largest metric window, so every metric's half-open window lies inside the
data's time range; nothing outside this range is emitted. -/
theorem output_times_within_range :
    (∀ traj : List TSample, traj ≠ [] → ∀ t ∈ outputTimes traj,
      minFrame traj + MAX_WINDOW / 2 ≤ t ∧
      t ≤ maxFrame traj - MAX_WINDOW / 2 ∧
      minFrame traj ≤ t - SPEED_WINDOW / 2 ∧
      t + SPEED_WINDOW / 2 ≤ maxFrame traj ∧
      minFrame traj ≤ t - FLOW_WINDOW / 2 ∧
      t + FLOW_WINDOW / 2 ≤ maxFrame traj ∧
      minFrame traj ≤ t - OCCUPANCY_WINDOW / 2 ∧
      t + OCCUPANCY_WINDOW / 2 ≤ maxFrame traj) ∧
    (∀ traj : List RSample, traj ≠ [] → ∀ t ∈ outputTimesRW traj,
      minFrameRW traj + MAX_WINDOW_RW / 2 ≤ (t : ℚ) ∧
      (t : ℚ) ≤ maxFrameRW traj - MAX_WINDOW_RW / 2) := by
  constructor
  · intro traj _ t ht
    rcases List.mem_map.mp ht with ⟨k, hk, rfl⟩
    rw [List.mem_range, numSteps] at hk
    by_cases hse : outputStart traj ≤ outputEnd traj
    case neg =>
      rw [if_neg hse] at hk
      exact absurd hk (by simp)
    rw [if_pos hse] at hk
    have hk' : (k : Int) ≤ ⌊outputEnd traj - outputStart traj⌋ := by omega
    have hkq : (k : ℚ) ≤ outputEnd traj - outputStart traj := by
      have h1 : ((k : Int) : ℚ) ≤
          (⌊outputEnd traj - outputStart traj⌋ : ℚ) := by
        exact_mod_cast hk'
      push_cast at h1
      exact h1.trans (Int.floor_le _)
    have hk0 : (0 : ℚ) ≤ (k : ℚ) := by positivity
    have hhalf : (MAX_HALF_WINDOW : ℚ) = 5 := by
      norm_num [MAX_HALF_WINDOW, MAX_WINDOW, SPEED_WINDOW, FLOW_WINDOW,
        OCCUPANCY_WINDOW, pyTrunc]
    have hMW : MAX_WINDOW = 10 := by
      norm_num [MAX_WINDOW, SPEED_WINDOW, FLOW_WINDOW, OCCUPANCY_WINDOW]
    have hl : minFrame traj + 5 ≤ outputStart traj + (k : ℚ) := by
      rw [outputStart, hhalf]
      linarith
    have hh : outputStart traj + (k : ℚ) ≤ maxFrame traj - 5 := by
      have he : outputEnd traj = maxFrame traj - 5 := by
        rw [outputEnd, hhalf]
      linarith
    rw [hMW, SPEED_WINDOW, FLOW_WINDOW, OCCUPANCY_WINDOW]
    refine ⟨by linarith, by linarith, by linarith, by linarith, by linarith,
      by linarith, by linarith, by linarith⟩
  · intro traj _ t ht
    rw [outputTimesRW] at ht
    by_cases hse : outputStartRW traj ≤ outputEndRW traj
    case neg =>
      rw [if_neg hse] at ht
      cases ht
    rw [if_pos hse] at ht
    rcases List.mem_map.mp ht with ⟨k, hk, rfl⟩
    rw [List.mem_range] at hk
    have hk' : outputStartRW traj + (k : Int) ≤ outputEndRW traj := by omega
    have hMW : MAX_WINDOW_RW = 2 := by
      norm_num [MAX_WINDOW_RW, SPEED_WINDOW_RW, FLOW_WINDOW_RW,
        OCCUPANCY_WINDOW_RW]
    have hhalf : (MAX_HALF_WINDOW_RW : ℚ) = 1 := by
      norm_num [MAX_HALF_WINDOW_RW, MAX_WINDOW_RW, SPEED_WINDOW_RW,
        FLOW_WINDOW_RW, OCCUPANCY_WINDOW_RW, pyTrunc]
    have h1 : minFrameRW traj + (MAX_HALF_WINDOW_RW : ℚ) ≤
        (outputStartRW traj : ℚ) := Int.le_ceil _
    have h4 : (outputEndRW traj : ℚ) ≤
        maxFrameRW traj - (MAX_HALF_WINDOW_RW : ℚ) := Int.floor_le _
    have h3 : ((outputStartRW traj + (k : Int) : Int) : ℚ) ≤
        (outputEndRW traj : ℚ) := by
      exact_mod_cast hk'
    rw [hhalf] at h1 h4
    rw [hMW]
    push_cast at h3 ⊢
    constructor
    · have hk0 : (0 : ℚ) ≤ (k : ℚ) := by positivity
      linarith
    · linarith

/-- The real-world trajectory used to witness the output-range claim:
frames 0 and 4, so the output times are `[1, 2, 3]`. -/
def trajR8 : List RSample := [⟨1, 0, 1, none⟩, ⟨1, 4, 1, none⟩]

theorem outputTimesRW_trajR8 : outputTimesRW trajR8 = [1, 2, 3] := by
  have hmin : minFrameRW trajR8 = 0 := by
    norm_num [minFrameRW, trajR8]
  have hmax : maxFrameRW trajR8 = 4 := by
    norm_num [maxFrameRW, trajR8]
  have hhalf : (MAX_HALF_WINDOW_RW : ℚ) = 1 := by
    norm_num [MAX_HALF_WINDOW_RW, MAX_WINDOW_RW, SPEED_WINDOW_RW,
      FLOW_WINDOW_RW, OCCUPANCY_WINDOW_RW, pyTrunc]
  have hs : outputStartRW trajR8 = 1 := by
    rw [outputStartRW, hmin, hhalf]
    norm_num [Int.ceil_one]
  have he : outputEndRW trajR8 = 3 := by
    rw [outputEndRW, hmax, hhalf]
    norm_num
  rw [outputTimesRW, hs, he, if_pos (by norm_num)]
  have h3 : ((3 : Int) - 1 + 1).toNat = 3 := rfl
  rw [h3]
  norm_num [List.range_succ]

/-- Witness for `output_times_within_range`: `t = 5` over `trajC6` and
`t = 1` over `trajR8`. -/
theorem output_times_within_range_witness :
    (minFrame trajC6 + MAX_WINDOW / 2 ≤ 5 ∧
      (5 : ℚ) ≤ maxFrame trajC6 - MAX_WINDOW / 2) ∧
    (minFrameRW trajR8 + MAX_WINDOW_RW / 2 ≤ ((1 : Int) : ℚ) ∧
      ((1 : Int) : ℚ) ≤ maxFrameRW trajR8 - MAX_WINDOW_RW / 2) := by
  have h1 := output_times_within_range.1 trajC6 (by simp [trajC6]) 5
    (by rw [outputTimes_trajC6]; simp)
  have h2 := output_times_within_range.2 trajR8 (by simp [trajR8]) 1
    (by rw [outputTimesRW_trajR8]; simp)
  exact ⟨⟨h1.1, h1.2.1⟩, h2⟩

/-! ### C9 — the concrete window example -/

/-- Two samples at node 7: vehicle 1 at `t = 10` with speed 30 and vehicle
2 at `t = 11` with speed 50; at output time 11 the speed window is exactly
`[10, 12)`. -/
def trajC9 : List TSample := [⟨1, 10, 7, 30, none⟩, ⟨2, 11, 7, 50, none⟩]

/-- C9: at output time 11 (speed window `[10, 12)` holding exactly the two
samples) the aggregator reports `avg_speed = 40.0` — the mean of the
absolute speeds — and the raw distinct-vehicle count `total_vehicles = 2`
in the record (the log-compression `log(1+count)/log(k)` only happens later
when the table is persisted). -/
theorem window_example_speed_and_flow :
    (nodeRecord trajC9 7 10 11).avg_speed = some 40 ∧
    (nodeRecord trajC9 7 10 11).total_vehicles = 2 := by
  have hng : nodeGroup trajC9 7 = trajC9 := rfl
  have hspeed : speedWindowData trajC9 7 11 = trajC9 := by
    rw [speedWindowData, hng, windowRows]
    norm_num [SPEED_HALF_WINDOW, SPEED_WINDOW, trajC9]
  have hflow : flowWindowData trajC9 7 11 = trajC9 := by
    rw [flowWindowData, hng, windowRows]
    norm_num [FLOW_HALF_WINDOW, FLOW_WINDOW, trajC9]
  constructor
  · have hproj : (nodeRecord trajC9 7 10 11).avg_speed =
        (if (speedWindowData trajC9 7 11).isEmpty then none
         else some (round2 (mean ((speedWindowData trajC9 7 11).map
           (fun r => |r.v|))))) := rfl
    rw [hproj, hspeed]
    norm_num [trajC9, mean, round2, roundHalfEven]
  · have hproj : (nodeRecord trajC9 7 10 11).total_vehicles =
        (dedupFirstInt [] ((flowWindowData trajC9 7 11).map (·.id))).length :=
      rfl
    rw [hproj, hflow]
    decide

/-! ### C10 — totality of the vehicle-length lookups -/

theorem lookup_val_mem {α β : Type} [BEq α] (k : α) (v : β) :
    ∀ l : List (α × β), l.lookup k = some v → v ∈ l.map Prod.snd := by
  intro l
  induction l with
  | nil => intro h; cases h
  | cons p rest ih =>
      obtain ⟨a, b⟩ := p
      intro h
      rw [List.lookup] at h
      cases hb : (k == a) with
      | true =>
          rw [hb] at h
          simp only [Option.some.injEq] at h
          subst h
          exact List.mem_cons_self _ _
      | false =>
          rw [hb] at h
          exact List.mem_cons_of_mem _ (ih h)

/-- C10: both vehicle-length lookups are total and positive — a missing,
unrecognized (after lower-casing and stripping) or non-positive input falls
back on the `'car'` default of 4.0 m — so occupancy is defined for every
trajectory sample. -/
theorem vehicle_length_total_positive :
    (∀ ct : Option String, 0 < get_vehicle_length ct) ∧
    get_vehicle_length none = 4 ∧
    (∀ s : String, VEHICLE_LENGTHS.lookup (pyStrip (pyLower s)) = none →
      get_vehicle_length (some s) = 4) ∧
    (∀ w : Option ℚ, 0 < get_vehicle_length_rw w) ∧
    get_vehicle_length_rw none = 4 ∧
    (∀ q : ℚ, q ≤ 0 → get_vehicle_length_rw (some q) = 4) := by
  have hcar : VEHICLE_LENGTHS.lookup "car" = some 4 := rfl
  have hpos : ∀ v ∈ VEHICLE_LENGTHS.map Prod.snd, (0 : ℚ) < v := by
    intro v hv
    simp only [VEHICLE_LENGTHS, List.map_cons, List.map_nil,
      List.mem_cons, List.not_mem_nil, or_false] at hv
    rcases hv with rfl | rfl | rfl | rfl
    · norm_num
    · norm_num
    · norm_num
    · norm_num
  refine ⟨?_, ?_, ?_, ?_, ?_, ?_⟩
  · intro ct
    cases ct with
    | none =>
        rw [get_vehicle_length, hcar]
        norm_num
    | some s =>
        rw [get_vehicle_length]
        rcases hl : VEHICLE_LENGTHS.lookup (pyStrip (pyLower s)) with _ | v
        · rw [hcar]
          norm_num
        · exact hpos v (lookup_val_mem _ v VEHICLE_LENGTHS hl)
  · rw [get_vehicle_length, hcar]
    rfl
  · intro s hs
    rw [get_vehicle_length, hs, hcar]
    rfl
  · intro w
    cases w with
    | none => norm_num [get_vehicle_length_rw]
    | some q =>
        rw [get_vehicle_length_rw]
        split_ifs with h
        · norm_num
        · linarith [not_le.mp h]
  · rfl
  · intro q hq
    rw [get_vehicle_length_rw, if_pos hq]

/-- Witness for `vehicle_length_total_positive`: the unknown class
`" TRUCK "` and the invalid width `-3` both fall back on 4.0 m. -/
theorem vehicle_length_total_positive_witness :
    (VEHICLE_LENGTHS.lookup (pyStrip (pyLower " TRUCK ")) = none ∧
      get_vehicle_length (some " TRUCK ") = 4) ∧
    ((-3 : ℚ) ≤ 0 ∧ get_vehicle_length_rw (some (-3)) = 4) :=
  ⟨⟨by decide, vehicle_length_total_positive.2.2.1 " TRUCK " (by decide)⟩,
   ⟨by norm_num,
    vehicle_length_total_positive.2.2.2.2.2 (-3) (by norm_num)⟩⟩

end Pneuma

